import Mathlib

/-!
# Verification of the egui ↔ vulkano integration core

Shallow embedding of `src/integration.rs` (the `Gui` facade) together with the
components it delegates to.  The facade in `integration.rs` is translated
directly; the delegates (`EguiContext` in `context.rs`,
`EguiVulkanoRenderer` in `renderer.rs`, `texture_from_file_bytes` in
`utils.rs`) are not part of the available sources and are modelled from the
specification, as marked in their doc comments.  Fatal conditions (Rust
panics, `assert!`, `.expect`) are modelled with `Option`: `none` means the
program stops loudly.
-/

namespace EguiVulkano

/-- Texture identifier.  The toolkit issues identifiers in the non-negative
range (`egui n`); externally registered images occupy a disjoint range
(`user n`) chosen by the integration. -/
inductive TextureId
  | egui (n : Nat)
  | user (n : Nat)
deriving DecidableEq, Repr

/-- A GPU-resident image, modelled by its pixel content. -/
structure GpuImage where
  width : Nat
  height : Nat
  data : List Nat
deriving DecidableEq, Repr

/-- Modelled from the spec: a registry entry is a tagged variant
distinguishing toolkit-owned (managed, update/free via delta) from
application-owned (external, freed only via explicit unregister) images. -/
inductive RegistryEntry
  | managed (img : GpuImage)
  | external (img : GpuImage)
deriving DecidableEq, Repr

/-- The texture registry: a finite map from texture identifiers to
GPU-resident entries, represented as an association list. -/
abbrev Registry := List (TextureId × RegistryEntry)

def Registry.lookup : Registry → TextureId → Option RegistryEntry
  | [], _ => none
  | (i, e) :: rest, id => if i = id then some e else Registry.lookup rest id

def Registry.erase (reg : Registry) (id : TextureId) : Registry :=
  List.filter (fun p => decide (p.1 ≠ id)) reg

def Registry.insert (reg : Registry) (id : TextureId) (e : RegistryEntry) : Registry :=
  (id, e) :: reg.erase id

/-- Modifier-key state tracked by the input adapter. -/
structure Modifiers where
  alt : Bool
  ctrl : Bool
  shift : Bool
  logo : Bool
deriving DecidableEq, Repr

/-- Cached input state of the session: cursor position, modifiers, and
the size/scale tracking read at the next frame begin. -/
structure InputState where
  cursorPos : ℚ × ℚ
  modifiers : Modifiers
  size : Nat × Nat
  scale : ℚ
deriving DecidableEq, Repr

/-- Frame lifecycle states of the session. -/
inductive FrameState
  | idle
  | frameOpen
deriving DecidableEq, Repr

/-- A clip rectangle (and also the scissor rectangle of a draw command),
with coordinates in ℚ standing for the floating point values. -/
structure Rect where
  minX : ℚ
  minY : ℚ
  maxX : ℚ
  maxY : ℚ
deriving DecidableEq, Repr

/-- A mesh vertex: position, texture coordinates and color. -/
structure Vertex where
  pos : ℚ × ℚ
  uv : ℚ × ℚ
  color : Nat
deriving DecidableEq, Repr

/-- A clipped mesh primitive as emitted by the toolkit: vertices, an index
list, a clip rectangle and the texture identifier it samples from. -/
structure ClippedMesh where
  clipRect : Rect
  vertices : List Vertex
  indices : List Nat
  textureId : TextureId
deriving DecidableEq, Repr

/-- One entry of a texture delta: a full or partial pixel update (optional
region position plus pixel data) or a removal marker. -/
inductive DeltaEntry
  | update (pos : Option (Nat × Nat)) (img : GpuImage)
  | remove
deriving DecidableEq, Repr

/-- A texture delta: identifier/entry pairs applied in order. -/
abbrev TextureDelta := List (TextureId × DeltaEntry)

/-- Per-frame output of the toolkit apart from the meshes: the requested
cursor icon (an icon code). -/
structure FrameOutput where
  cursorIcon : Nat
deriving DecidableEq, Repr

/-- The part of the toolkit state that the application layout closure
mutates through the exposed context handle, and which determines the frame
output: meshes, texture delta and cursor icon request. -/
structure UiContent where
  output : FrameOutput
  meshes : List ClippedMesh
  delta : TextureDelta
deriving DecidableEq

/-- Modelled from the spec: the session owned by `EguiContext`
(`context.rs`, not among the available sources) — frame lifecycle state,
cached input, the input snapshot taken at frame begin, and the toolkit
content the layout closure mutates. -/
structure EguiContext where
  frame : FrameState
  input : InputState
  frameInput : InputState
  content : UiContent
deriving DecidableEq

/-- Modelled from the spec: `begin` is valid only from `Idle`; it snapshots
the cached input and opens a frame.  Calling it while a frame is already
open is fatal (`none`). -/
def begin_frame (c : EguiContext) : Option EguiContext :=
  match c.frame with
  | .frameOpen => none
  | .idle => some { c with frame := .frameOpen, frameInput := c.input }

/-- Modelled from the spec: `end` is valid only from `FrameOpen`; it
finalizes the frame, returning the frame output, the clipped meshes and the
texture delta.  Calling it while idle is fatal (`none`). -/
def end_frame (c : EguiContext) :
    Option (EguiContext × FrameOutput × List ClippedMesh × TextureDelta) :=
  match c.frame with
  | .idle => none
  | .frameOpen =>
      some ({ c with frame := .idle }, c.content.output, c.content.meshes, c.content.delta)

/-- Modelled from the spec: uploading a sub-region update into an existing
GPU image — pixels inside the region come from the patch, the rest is kept. -/
def patchImage (base : GpuImage) (p : Nat × Nat) (patch : GpuImage) : GpuImage :=
  { base with
    data := (List.range (base.width * base.height)).map (fun i =>
      let x := i % base.width
      let y := i / base.width
      if p.1 ≤ x ∧ x < p.1 + patch.width ∧ p.2 ≤ y ∧ y < p.2 + patch.height then
        patch.data.getD ((y - p.2) * patch.width + (x - p.1)) 0
      else
        base.data.getD i 0) }

/-- Modelled from the spec: application of a single delta entry
(`apply_delta` lives in `renderer.rs`, not among the available sources).
Removal releases and erases managed entries only; removing a non-existent or
externally-owned entry is a no-op.  An update allocates a new managed image
when the identifier is new, uploads a sub-region when it exists, and never
touches externally-owned entries (they are not subject to toolkit deltas). -/
def applyDeltaEntry (reg : Registry) (id : TextureId) (e : DeltaEntry) : Registry :=
  match e with
  | .remove =>
      match reg.lookup id with
      | some (.managed _) => reg.erase id
      | _ => reg
  | .update pos img =>
      match reg.lookup id, pos with
      | some (.managed base), some p => reg.insert id (.managed (patchImage base p img))
      | some (.managed _), none => reg.insert id (.managed img)
      | some (.external _), _ => reg
      | none, _ => reg.insert id (.managed img)

/-- Modelled from the spec: apply a whole texture delta, entry by entry in
delta order (later entries for the same identifier override earlier ones). -/
def apply_delta (reg : Registry) (d : TextureDelta) : Registry :=
  List.foldl (fun r (p : TextureId × DeltaEntry) => applyDeltaEntry r p.1 p.2) reg d

/-- Modelled from the spec: the renderer/resource bridge
(`EguiVulkanoRenderer` in `renderer.rs`, not among the available sources) —
the texture registry together with the counter allocating identifiers in
the externally-registered range. -/
structure Renderer where
  registry : Registry
  nextUserId : Nat
deriving DecidableEq

/-- Modelled from the spec: `register_external_image` on the renderer —
allocates a fresh identifier in the user range, inserts an externally-owned
entry sharing the caller-supplied image, returns the identifier. -/
def Renderer.register_user_image (r : Renderer) (img : GpuImage) : Renderer × TextureId :=
  let id := TextureId.user r.nextUserId
  ({ registry := r.registry.insert id (.external img), nextUserId := r.nextUserId + 1 }, id)

/-- Modelled from the spec: `unregister` on the renderer — removes an
externally-owned entry; no-op if the identifier does not exist or is
managed (managed entries are only removed via deltas). -/
def Renderer.unregister_user_image (r : Renderer) (id : TextureId) : Renderer :=
  match r.registry.lookup id with
  | some (.external _) => { r with registry := r.registry.erase id }
  | _ => r

/-- Magic signature of the PNG container format. -/
def pngMagic : List Nat := [137, 80, 78, 71, 13, 10, 26, 10]

/-- Magic signature of the JPEG container format. -/
def jpegMagic : List Nat := [255, 216, 255]

/-- Modelled from the spec: `texture_from_file_bytes` (`utils.rs`, not among
the available sources) — decodes a supported encoded image format from raw
bytes and uploads it as a GPU image; yields `none` (a decode error, fatal at
the call site) when the bytes are not a supported image encoding.  Supported
encodings are recognised by their magic signature; the decoded pixel content
is abstracted as a deterministic function of the bytes. -/
def texture_from_file_bytes (bytes : List Nat) : Option GpuImage :=
  if bytes.take 8 = pngMagic ∨ bytes.take 3 = jpegMagic then
    some { width := bytes.length, height := 1, data := bytes }
  else
    none

/-- Clamp a coordinate into the interval from `lo` to `hi`. -/
def clampQ (lo hi a : ℚ) : ℚ :=
  if a < lo then lo else if hi < a then hi else a

/-- Modelled from the spec: the scissor rectangle of a draw command —
the primitive clip rectangle scaled to the physical target (by the
pixels-per-point scale factor) and clamped to the target bounds
`[0,0]` – `target`. -/
def clampClip (clip : Rect) (scale : ℚ) (target : Nat × Nat) : Rect :=
  { minX := clampQ 0 (target.1 : ℚ) (clip.minX * scale)
    minY := clampQ 0 (target.2 : ℚ) (clip.minY * scale)
    maxX := clampQ 0 (target.1 : ℚ) (clip.maxX * scale)
    maxY := clampQ 0 (target.2 : ℚ) (clip.maxY * scale) }

/-- One emitted draw command: the clamped scissor rectangle, the resolved
registry entry, and the bound vertex/index data of the primitive. -/
structure DrawCmd where
  clip : Rect
  texture : RegistryEntry
  vertices : List Vertex
  indices : List Nat
deriving DecidableEq

/-- Modelled from the spec: build one draw command for one clipped
primitive — resolve its texture identifier against the registry (fatal,
`none`, if unresolved), set the clamped clip rectangle and bind the
vertex/index data. -/
def buildCommand (reg : Registry) (scale : ℚ) (target : Nat × Nat) (m : ClippedMesh) :
    Option DrawCmd :=
  match reg.lookup m.textureId with
  | none => none
  | some e =>
      some { clip := clampClip m.clipRect scale target
             texture := e
             vertices := m.vertices
             indices := m.indices }

/-- Modelled from the spec: `build_commands` — one draw command per clipped
primitive, in submission order; fatal (`none`) as soon as a primitive has an
unresolved texture identifier. -/
def build_commands (reg : Registry) (scale : ℚ) (target : Nat × Nat) :
    List ClippedMesh → Option (List DrawCmd)
  | [] => some []
  | m :: ms =>
      match buildCommand reg scale target m, build_commands reg scale target ms with
      | some c, some cs => some (c :: cs)
      | _, _ => none

/-- The platform window, as far as this integration touches it: the cursor
icon currently applied. -/
structure WindowState where
  cursor : Option Nat
deriving DecidableEq, Repr

/-- Modelled from the spec: `update_cursor_icon` — applies the requested
cursor icon to the platform window as a best-effort call; `accepts` says
which icons the platform accepts, and a rejection is ignored. -/
def update_cursor_icon (w : WindowState) (accepts : Nat → Bool) (icon : Nat) : WindowState :=
  if accepts icon then { w with cursor := some icon } else w

/-- A platform input event, as far as the adapter models it.  The toolkit
does not model raw redraw requests or the remaining event kinds. -/
inductive PlatformEvent
  | cursorMoved (p : ℚ × ℚ)
  | modifiersChanged (m : Modifiers)
  | resized (s : Nat × Nat)
  | scaleFactorChanged (f : ℚ)
  | redrawRequested
  | unmodeled
deriving DecidableEq

/-- Modelled from the spec: `handle_event` on the session — updates the
cached cursor position, modifier-key state and size/scale tracking; silent
no-op on events the toolkit does not model. -/
def handle_event (c : EguiContext) (e : PlatformEvent) : EguiContext :=
  match e with
  | .cursorMoved p => { c with input := { c.input with cursorPos := p } }
  | .modifiersChanged m => { c with input := { c.input with modifiers := m } }
  | .resized s => { c with input := { c.input with size := s } }
  | .scaleFactorChanged f => { c with input := { c.input with scale := f } }
  | .redrawRequested => c
  | .unmodeled => c

/-- A vulkano subpass, as far as `Gui::new` inspects it: whether it has a
depth attachment and how many color attachments it has. -/
structure Subpass where
  hasDepth : Bool
  numColorAttachments : Nat
deriving DecidableEq, Repr

/-- The integration object of `integration.rs`: the session context and the
renderer. -/
structure Gui where
  context : EguiContext
  renderer : Renderer
deriving DecidableEq

/-- Modelled from the spec: `EguiContext::new` (`context.rs`, not among the
available sources) — the session created at integration setup, starting
idle with the supplied size and scale factor cached. -/
def EguiContext.new (size : Nat × Nat) (scaleFactor : ℚ) : EguiContext :=
  let input : InputState :=
    { cursorPos := (0, 0)
      modifiers := { alt := false, ctrl := false, shift := false, logo := false }
      size := size
      scale := scaleFactor }
  { frame := .idle
    input := input
    frameInput := input
    content :=
      { output := { cursorIcon := 0 }
        meshes := []
        delta := [] } }

/-- Modelled from the spec: `EguiVulkanoRenderer::new` (`renderer.rs`, not
among the available sources) — an empty registry and a fresh user-identifier
counter. -/
def Renderer.new : Renderer :=
  { registry := [], nextUserId := 0 }

/-- `Gui::new` from `integration.rs`: asserts that the subpass has a depth
attachment and at least one color attachment (panic, `none`, otherwise),
then builds the context and the renderer. -/
def Gui.new (size : Nat × Nat) (scaleFactor : ℚ) (subpass : Subpass) : Option Gui :=
  if subpass.hasDepth = true ∧ 1 ≤ subpass.numColorAttachments then
    some { context := EguiContext.new size scaleFactor, renderer := Renderer.new }
  else
    none

/-- `Gui::update` from `integration.rs`: forwards the winit event to
`context.handle_event`. -/
def Gui.update (g : Gui) (e : PlatformEvent) : Gui :=
  { g with context := handle_event g.context e }

/-- `Gui::immediate_ui` from `integration.rs`: begins the frame
(fatal, `none`, if a frame is already open) and then invokes the layout
closure exactly once with the live context handle; it does not end the
frame.  The closure acts on the toolkit content reachable through the
handed-out `CtxRef`, so it cannot touch the frame lifecycle state. -/
def Gui.immediate_ui (g : Gui) (layout : UiContent → UiContent) : Option Gui :=
  match begin_frame g.context with
  | none => none
  | some c => some { g with context := { c with content := layout c.content } }

/-- `Gui::draw` from `integration.rs`: ends the frame (fatal, `none`, while
idle), applies the requested cursor icon to the window best-effort, and has
the renderer apply the frame texture delta and build the draw commands
into a command buffer. -/
def Gui.draw (g : Gui) (w : WindowState) (accepts : Nat → Bool) (dims : Nat × Nat) :
    Option (Gui × WindowState × List DrawCmd) :=
  match end_frame g.context with
  | none => none
  | some (c, output, meshes, delta) =>
      let w2 := update_cursor_icon w accepts output.cursorIcon
      let reg2 := apply_delta g.renderer.registry delta
      match build_commands reg2 c.input.scale dims meshes with
      | none => none
      | some cmds =>
          some ({ context := c, renderer := { g.renderer with registry := reg2 } }, w2, cmds)

/-- `Gui::register_user_image` from `integration.rs`: decodes the supplied
bytes via `texture_from_file_bytes`, panics (`none`) on a decode failure
(`.expect`), and otherwise registers the decoded image through the
external-image path. -/
def Gui.register_user_image (g : Gui) (bytes : List Nat) : Option (Gui × TextureId) :=
  match texture_from_file_bytes bytes with
  | none => none
  | some img =>
      let rid := g.renderer.register_user_image img
      some ({ g with renderer := rid.1 }, rid.2)

/-- `Gui::register_user_image_view` from `integration.rs`: registers a
caller-supplied image directly through the external-image path. -/
def Gui.register_user_image_view (g : Gui) (img : GpuImage) : Gui × TextureId :=
  let rid := g.renderer.register_user_image img
  ({ g with renderer := rid.1 }, rid.2)

/-- `Gui::unregister_user_image` from `integration.rs`: forwards to the
renderer. -/
def Gui.unregister_user_image (g : Gui) (id : TextureId) : Gui :=
  { g with renderer := g.renderer.unregister_user_image id }

/-- One public frame-lifecycle call on the integration: `immediate_ui`
(which begins a frame) or `draw` (which ends one). -/
inductive GuiOp
  | ui (layout : UiContent → UiContent)
  | drawOp (accepts : Nat → Bool) (dims : Nat × Nat)

/-- Run a sequence of frame-lifecycle calls.  A fatal call (`none`) stops
the whole run: there is no recovery. -/
def runOps (g : Gui) (w : WindowState) : List GuiOp → Option (Gui × WindowState)
  | [] => some (g, w)
  | .ui f :: ops =>
      match g.immediate_ui f with
      | none => none
      | some g2 => runOps g2 w ops
  | .drawOp a d :: ops =>
      match g.draw w a d with
      | none => none
      | some (g2, w2, _) => runOps g2 w2 ops

/-! ## Registry lemmas -/

theorem Registry.lookup_insert_self (reg : Registry) (id : TextureId) (e : RegistryEntry) :
    Registry.lookup (reg.insert id e) id = some e := by
  simp [Registry.insert, Registry.lookup]

theorem Registry.lookup_erase_self (reg : Registry) (id : TextureId) :
    Registry.lookup (reg.erase id) id = none := by
  induction reg with
  | nil => rfl
  | cons p rest ih =>
    by_cases h : p.1 = id
    · simpa [Registry.erase, List.filter_cons, h] using ih
    · simpa [Registry.erase, List.filter_cons, h, Registry.lookup] using ih

theorem Registry.lookup_erase_ne (reg : Registry) (id id2 : TextureId) (h : id2 ≠ id) :
    Registry.lookup (reg.erase id) id2 = Registry.lookup reg id2 := by
  induction reg with
  | nil => rfl
  | cons p rest ih =>
    by_cases hp : p.1 = id
    · simp [Registry.erase, List.filter_cons, hp, Registry.lookup, Ne.symm h] at *
      exact ih
    · by_cases hq : p.1 = id2
      · simp [Registry.erase, List.filter_cons, hp, Registry.lookup, hq, h]
      · simp [Registry.erase, List.filter_cons, hp, Registry.lookup, hq] at *
        exact ih

/-! ## Lifecycle lemmas -/

theorem immediate_ui_of_open (g : Gui) (f : UiContent → UiContent)
    (h : g.context.frame = FrameState.frameOpen) : g.immediate_ui f = none := by
  simp [Gui.immediate_ui, begin_frame, h]

theorem immediate_ui_of_idle (g : Gui) (f : UiContent → UiContent)
    (h : g.context.frame = FrameState.idle) :
    g.immediate_ui f = some { g with context :=
      { frame := FrameState.frameOpen
        input := g.context.input
        frameInput := g.context.input
        content := f g.context.content } } := by
  simp [Gui.immediate_ui, begin_frame, h]

theorem draw_of_idle (g : Gui) (w : WindowState) (a : Nat → Bool) (d : Nat × Nat)
    (h : g.context.frame = FrameState.idle) : g.draw w a d = none := by
  simp [Gui.draw, end_frame, h]

theorem draw_of_open (g : Gui) (w : WindowState) (a : Nat → Bool) (d : Nat × Nat)
    (h : g.context.frame = FrameState.frameOpen) :
    g.draw w a d =
      match build_commands (apply_delta g.renderer.registry g.context.content.delta)
          g.context.input.scale d g.context.content.meshes with
      | none => none
      | some cmds =>
          some ({ context := { g.context with frame := FrameState.idle },
                  renderer := { g.renderer with
                    registry := apply_delta g.renderer.registry g.context.content.delta } },
                update_cursor_icon w a g.context.content.output.cursorIcon, cmds) := by
  simp [Gui.draw, end_frame, h]

/-! ## Claim theorems -/

/-- C3: within one `TextureDelta` batch, entries are applied in delta order
(appending batches composes the applications in order) and later entries for
the same identifier override earlier ones: applying a removal for `X`
followed immediately by an update for `X` in the same batch leaves `X`
present in the registry afterward. -/
theorem apply_delta_later_wins :
    (∀ (reg : Registry) (d1 d2 : TextureDelta),
      apply_delta reg (d1 ++ d2) = apply_delta (apply_delta reg d1) d2)
    ∧ ∀ (reg : Registry) (X : TextureId) (pos : Option (Nat × Nat)) (img : GpuImage),
      (Registry.lookup
        (apply_delta reg [(X, DeltaEntry.remove), (X, DeltaEntry.update pos img)]) X).isSome
        = true := by
  constructor
  · intro reg d1 d2
    simp [apply_delta, List.foldl_append]
  · intro reg X pos img
    simp only [apply_delta, List.foldl_cons, List.foldl_nil]
    rcases h : Registry.lookup reg X with _ | e
    · cases pos <;> simp [applyDeltaEntry, h, Registry.lookup_insert_self]
    · cases e with
      | managed b =>
        have herase := Registry.lookup_erase_self reg X
        cases pos <;> simp [applyDeltaEntry, h, herase, Registry.lookup_insert_self]
      | external b =>
        cases pos <;> simp [applyDeltaEntry, h]

/-- A concrete integration used to instantiate theorems: 800×600 window,
scale factor 1, empty registry. -/
def gui0 : Gui :=
  { context := EguiContext.new (800, 600) 1, renderer := Renderer.new }

/-- A concrete 1×1 image. -/
def img0 : GpuImage := { width := 1, height := 1, data := [1, 2, 3, 4] }

/-- The image decoded from the PNG magic bytes alone. -/
def img1 : GpuImage := { width := 8, height := 1, data := pngMagic }

/-- A concrete integration whose registry holds one managed entry. -/
def gui1 : Gui :=
  { context := EguiContext.new (800, 600) 1
    renderer := { registry := [(TextureId.egui 0, RegistryEntry.managed img0)], nextUserId := 0 } }

/-- C6: registering an external image yields an identifier under which the
image is present; unregistering that identifier removes it; a second
unregister of the same identifier is a no-op; unregister of a non-existent
or managed identifier is likewise a no-op, never an error. -/
theorem external_image_roundtrip :
    (∀ (g g2 : Gui) (img : GpuImage) (id : TextureId),
      g.register_user_image_view img = (g2, id) →
      Registry.lookup g2.renderer.registry id = some (RegistryEntry.external img)
      ∧ Registry.lookup (g2.unregister_user_image id).renderer.registry id = none
      ∧ (g2.unregister_user_image id).unregister_user_image id = g2.unregister_user_image id)
    ∧ (∀ (g : Gui) (id : TextureId),
        Registry.lookup g.renderer.registry id = none → g.unregister_user_image id = g)
    ∧ ∀ (g : Gui) (id : TextureId) (img : GpuImage),
        Registry.lookup g.renderer.registry id = some (RegistryEntry.managed img) →
        g.unregister_user_image id = g := by
  refine ⟨?_, ?_, ?_⟩
  · intro g g2 img id h
    simp only [Gui.register_user_image_view, Renderer.register_user_image, Prod.mk.injEq] at h
    obtain ⟨h1, h2⟩ := h
    subst h1
    subst h2
    refine ⟨Registry.lookup_insert_self _ _ _, ?_, ?_⟩
    · simp [Gui.unregister_user_image, Renderer.unregister_user_image,
        Registry.lookup_insert_self, Registry.lookup_erase_self]
    · simp [Gui.unregister_user_image, Renderer.unregister_user_image,
        Registry.lookup_insert_self, Registry.lookup_erase_self]
  · intro g id h
    simp [Gui.unregister_user_image, Renderer.unregister_user_image, h]
  · intro g id img h
    simp [Gui.unregister_user_image, Renderer.unregister_user_image, h]

/-- Witness for C6 at a concrete integration and image. -/
theorem external_image_roundtrip_witness :
    (Registry.lookup (gui0.register_user_image_view img0).1.renderer.registry
        (gui0.register_user_image_view img0).2 = some (RegistryEntry.external img0)
      ∧ Registry.lookup
          ((gui0.register_user_image_view img0).1.unregister_user_image
            (gui0.register_user_image_view img0).2).renderer.registry
          (gui0.register_user_image_view img0).2 = none
      ∧ ((gui0.register_user_image_view img0).1.unregister_user_image
            (gui0.register_user_image_view img0).2).unregister_user_image
            (gui0.register_user_image_view img0).2
          = (gui0.register_user_image_view img0).1.unregister_user_image
            (gui0.register_user_image_view img0).2)
    ∧ gui0.unregister_user_image (TextureId.user 5) = gui0
    ∧ gui1.unregister_user_image (TextureId.egui 0) = gui1 :=
  ⟨external_image_roundtrip.1 gui0 (gui0.register_user_image_view img0).1 img0
      (gui0.register_user_image_view img0).2 rfl,
   external_image_roundtrip.2.1 gui0 (TextureId.user 5) (by decide),
   external_image_roundtrip.2.2 gui1 (TextureId.egui 0) img0 (by decide)⟩

/-- C9: `Gui::new` succeeds exactly when the supplied subpass has a depth
attachment and at least one color attachment (it panics otherwise), and on
success the integration starts in the idle frame state. -/
theorem gui_new_assertions :
    (∀ (size : Nat × Nat) (scale : ℚ) (sp : Subpass),
      (Gui.new size scale sp).isSome = true ↔
        sp.hasDepth = true ∧ 1 ≤ sp.numColorAttachments)
    ∧ ∀ (size : Nat × Nat) (scale : ℚ) (sp : Subpass) (g : Gui),
        Gui.new size scale sp = some g → g.context.frame = FrameState.idle := by
  constructor
  · intro size scale sp
    by_cases h : sp.hasDepth = true ∧ 1 ≤ sp.numColorAttachments <;> simp [Gui.new, h]
  · intro size scale sp g h
    by_cases hc : sp.hasDepth = true ∧ 1 ≤ sp.numColorAttachments
    · simp only [Gui.new, if_pos hc, Option.some.injEq] at h
      subst h
      rfl
    · simp [Gui.new, hc] at h

/-- Witness for C9 at a concrete subpass. -/
theorem gui_new_assertions_witness :
    ((Gui.new (800, 600) 1 { hasDepth := true, numColorAttachments := 1 }).isSome = true)
    ∧ ({ context := EguiContext.new (800, 600) 1, renderer := Renderer.new } : Gui).context.frame
        = FrameState.idle :=
  ⟨(gui_new_assertions.1 (800, 600) 1 { hasDepth := true, numColorAttachments := 1 }).mpr
      (by decide),
   gui_new_assertions.2 (800, 600) 1 { hasDepth := true, numColorAttachments := 1 } _ rfl⟩

/-- C5: `register_user_image` on bytes that are not a supported encoded
image format — four zero bytes in particular — fails fatally at the call
site; on bytes that decode, it returns a fresh identifier through the
external-image registration path. -/
theorem register_user_image_decode :
    (∀ (g : Gui), g.register_user_image [0, 0, 0, 0] = none)
    ∧ (∀ (g : Gui) (bytes : List Nat) (img : GpuImage),
        texture_from_file_bytes bytes = some img →
        g.register_user_image bytes =
          some ({ g with renderer := (g.renderer.register_user_image img).1 },
                (g.renderer.register_user_image img).2))
    ∧ ∀ (g : Gui) (img : GpuImage),
        (g.renderer.register_user_image img).2 = TextureId.user g.renderer.nextUserId := by
  refine ⟨?_, ?_, ?_⟩
  · intro g
    simp [Gui.register_user_image,
      show texture_from_file_bytes [0, 0, 0, 0] = none from by decide]
  · intro g bytes img h
    simp [Gui.register_user_image, h]
  · intro g img
    rfl

/-- Witness for C5 at concrete bytes (the PNG signature). -/
theorem register_user_image_decode_witness :
    gui0.register_user_image [0, 0, 0, 0] = none
    ∧ gui0.register_user_image pngMagic =
        some ({ gui0 with renderer := (gui0.renderer.register_user_image img1).1 },
              (gui0.renderer.register_user_image img1).2) :=
  ⟨register_user_image_decode.1 gui0,
   register_user_image_decode.2.1 gui0 pngMagic img1 (by decide)⟩

/-- C1: beginning a frame (via `immediate_ui`) while a frame is already
open, or ending one (via `draw`) while none is open, is fatal; and in any
sequence of frame-lifecycle calls such a call aborts the whole run — the
state machine never silently self-corrects or recovers. -/
theorem frame_lifecycle_fatal :
    (∀ (g : Gui) (f : UiContent → UiContent),
      g.context.frame = FrameState.frameOpen → g.immediate_ui f = none)
    ∧ (∀ (g : Gui) (w : WindowState) (a : Nat → Bool) (d : Nat × Nat),
        g.context.frame = FrameState.idle → g.draw w a d = none)
    ∧ (∀ (g : Gui) (w : WindowState) (f : UiContent → UiContent) (ops : List GuiOp),
        g.context.frame = FrameState.frameOpen → runOps g w (GuiOp.ui f :: ops) = none)
    ∧ ∀ (g : Gui) (w : WindowState) (a : Nat → Bool) (d : Nat × Nat) (ops : List GuiOp),
        g.context.frame = FrameState.idle → runOps g w (GuiOp.drawOp a d :: ops) = none := by
  refine ⟨immediate_ui_of_open, draw_of_idle, ?_, ?_⟩
  · intro g w f ops h
    simp [runOps, immediate_ui_of_open g f h]
  · intro g w a d ops h
    simp [runOps, draw_of_idle g w a d h]

/-- The concrete integration `gui0` with its frame open. -/
def guiOpen : Gui :=
  { gui0 with context := { gui0.context with frame := FrameState.frameOpen } }

/-- Witness for C1 at a concrete integration: an idle integration rejects
`draw`, and a frame-open integration rejects `immediate_ui`, aborting any
continuation. -/
theorem frame_lifecycle_fatal_witness :
    gui0.draw { cursor := none } (fun _ => true) (800, 600) = none
    ∧ runOps guiOpen { cursor := none }
        [GuiOp.ui id, GuiOp.drawOp (fun _ => true) (800, 600)] = none :=
  ⟨frame_lifecycle_fatal.2.1 gui0 { cursor := none } (fun _ => true) (800, 600) rfl,
   frame_lifecycle_fatal.2.2.1 guiOpen { cursor := none } id
     [GuiOp.drawOp (fun _ => true) (800, 600)] rfl⟩

/-- C10: `immediate_ui` begins the frame and applies the layout closure
exactly once to the toolkit content, but does not end the frame — the
resulting state is still frame-open, so a closure that returns without any
lifecycle call leaves the frame open, and a second `immediate_ui` before a
`draw` is fatal; only `draw` ends the frame: a successful `draw` starts
from a frame-open state and returns to idle.  Hence the public interface
forces strict alternation of `immediate_ui` and `draw`. -/
theorem lifecycle_split_alternation :
    (∀ (g : Gui) (f : UiContent → UiContent),
      g.context.frame = FrameState.idle →
      ∃ g2, g.immediate_ui f = some g2
        ∧ g2.context.frame = FrameState.frameOpen
        ∧ g2.context.content = f g.context.content
        ∧ ∀ f2, g2.immediate_ui f2 = none)
    ∧ ∀ (g : Gui) (w : WindowState) (a : Nat → Bool) (d : Nat × Nat) (g2 : Gui)
        (w2 : WindowState) (cmds : List DrawCmd),
        g.draw w a d = some (g2, w2, cmds) →
        g.context.frame = FrameState.frameOpen ∧ g2.context.frame = FrameState.idle := by
  constructor
  · intro g f h
    refine ⟨_, immediate_ui_of_idle g f h, rfl, rfl, ?_⟩
    intro f2
    exact immediate_ui_of_open _ f2 rfl
  · intro g w a d g2 w2 cmds h
    cases hf : g.context.frame with
    | idle =>
      rw [draw_of_idle g w a d hf] at h
      exact absurd h (by simp)
    | frameOpen =>
      refine ⟨rfl, ?_⟩
      rw [draw_of_open g w a d hf] at h
      rcases hb : build_commands (apply_delta g.renderer.registry g.context.content.delta)
          g.context.input.scale d g.context.content.meshes with _ | cs
      · rw [hb] at h
        exact absurd h (by simp)
      · rw [hb] at h
        simp only [Option.some.injEq, Prod.mk.injEq] at h
        obtain ⟨hg2, -, -⟩ := h
        rw [← hg2]

/-- Witness for C10 at a concrete integration: a concrete successful `draw`
starts frame-open and ends idle. -/
theorem lifecycle_split_alternation_witness :
    guiOpen.context.frame = FrameState.frameOpen
    ∧ gui0.context.frame = FrameState.idle :=
  lifecycle_split_alternation.2 guiOpen { cursor := none } (fun _ => true) (800, 600)
    gui0 { cursor := some 0 } [] (by decide)

/-- C7: the cursor icon requested by the frame output is applied to the
platform window inside `draw` best-effort only — the integration state and
command buffer returned by `draw`, and whether `draw` succeeds at all, do
not depend on whether the platform accepts the icon, and a rejected icon
leaves the window untouched; a rejection is never propagated as an error. -/
theorem cursor_icon_best_effort :
    (∀ (g : Gui) (w : WindowState) (a1 a2 : Nat → Bool) (d : Nat × Nat),
      Option.map (fun r => (r.1, r.2.2)) (g.draw w a1 d)
        = Option.map (fun r => (r.1, r.2.2)) (g.draw w a2 d)
      ∧ (g.draw w a1 d).isSome = (g.draw w a2 d).isSome)
    ∧ ∀ (g : Gui) (w : WindowState) (a : Nat → Bool) (d : Nat × Nat),
        a g.context.content.output.cursorIcon = false →
        Option.map (fun r => r.2.1) (g.draw w a d) = Option.map (fun _ => w) (g.draw w a d) := by
  constructor
  · intro g w a1 a2 d
    cases hf : g.context.frame with
    | idle => simp [draw_of_idle g w a1 d hf, draw_of_idle g w a2 d hf]
    | frameOpen =>
      rw [draw_of_open g w a1 d hf, draw_of_open g w a2 d hf]
      rcases hb : build_commands (apply_delta g.renderer.registry g.context.content.delta)
          g.context.input.scale d g.context.content.meshes with _ | cs <;> simp [hb]
  · intro g w a d h
    cases hf : g.context.frame with
    | idle => simp [draw_of_idle g w a d hf]
    | frameOpen =>
      rw [draw_of_open g w a d hf]
      rcases hb : build_commands (apply_delta g.renderer.registry g.context.content.delta)
          g.context.input.scale d g.context.content.meshes with _ | cs <;>
        simp [hb, update_cursor_icon, h]

/-- Witness for C7 at a concrete integration: a platform that rejects every
icon and one that accepts every icon give the same integration state and
commands, and the rejecting platform leaves the window untouched. -/
theorem cursor_icon_best_effort_witness :
    (Option.map (fun r => (r.1, r.2.2)) (guiOpen.draw { cursor := none } (fun _ => false) (800, 600))
      = Option.map (fun r => (r.1, r.2.2)) (guiOpen.draw { cursor := none } (fun _ => true) (800, 600)))
    ∧ Option.map (fun r => r.2.1) (guiOpen.draw { cursor := none } (fun _ => false) (800, 600))
        = Option.map (fun _ => ({ cursor := none } : WindowState))
            (guiOpen.draw { cursor := none } (fun _ => false) (800, 600)) :=
  ⟨(cursor_icon_best_effort.1 guiOpen { cursor := none } (fun _ => false) (fun _ => true)
      (800, 600)).1,
   cursor_icon_best_effort.2 guiOpen { cursor := none } (fun _ => false) (800, 600) rfl⟩

/-- C8: `Gui::update` consumes one platform event with no other result; an
event the toolkit does not model (a raw redraw request in particular) is a
silent no-op, and a modeled event only changes the session's cached input
state — the renderer, the frame lifecycle state, the toolkit content and
the frame-begin input snapshot are untouched; the cached input is read at
the next frame begin, which snapshots it. -/
theorem handle_event_confined :
    (∀ (g : Gui) (e : PlatformEvent),
      (g.update e).renderer = g.renderer
      ∧ (g.update e).context.frame = g.context.frame
      ∧ (g.update e).context.content = g.context.content
      ∧ (g.update e).context.frameInput = g.context.frameInput)
    ∧ (∀ (g : Gui),
        g.update PlatformEvent.redrawRequested = g ∧ g.update PlatformEvent.unmodeled = g)
    ∧ ∀ (c : EguiContext), c.frame = FrameState.idle →
        Option.map EguiContext.frameInput (begin_frame c) = some c.input := by
  refine ⟨?_, ?_, ?_⟩
  · intro g e
    cases e <;> simp [Gui.update, handle_event]
  · intro g
    exact ⟨rfl, rfl⟩
  · intro c h
    simp [begin_frame, h]

/-- Witness for C8 at a concrete integration and a concrete cursor event. -/
theorem handle_event_confined_witness :
    ((gui0.update (PlatformEvent.cursorMoved (3, 4))).renderer = gui0.renderer
      ∧ (gui0.update (PlatformEvent.cursorMoved (3, 4))).context.frame = gui0.context.frame
      ∧ (gui0.update (PlatformEvent.cursorMoved (3, 4))).context.content
          = gui0.context.content
      ∧ (gui0.update (PlatformEvent.cursorMoved (3, 4))).context.frameInput
          = gui0.context.frameInput)
    ∧ gui0.update PlatformEvent.redrawRequested = gui0
    ∧ Option.map EguiContext.frameInput (begin_frame gui0.context) = some gui0.context.input :=
  ⟨handle_event_confined.1 gui0 (PlatformEvent.cursorMoved (3, 4)),
   (handle_event_confined.2.1 gui0).1,
   handle_event_confined.2.2 gui0.context rfl⟩

/-! ## Build-command lemmas -/

theorem build_commands_cons_isSome (reg : Registry) (scale : ℚ) (target : Nat × Nat)
    (m : ClippedMesh) (ms : List ClippedMesh) :
    (build_commands reg scale target (m :: ms)).isSome
      = ((Registry.lookup reg m.textureId).isSome
          && (build_commands reg scale target ms).isSome) := by
  rcases h : Registry.lookup reg m.textureId with _ | e <;>
    rcases hb : build_commands reg scale target ms with _ | cs <;>
      simp [build_commands, buildCommand, h, hb]

theorem build_commands_isSome_iff (reg : Registry) (scale : ℚ) (target : Nat × Nat)
    (meshes : List ClippedMesh) :
    (build_commands reg scale target meshes).isSome = true
      ↔ ∀ m ∈ meshes, (Registry.lookup reg m.textureId).isSome = true := by
  induction meshes with
  | nil => simp [build_commands]
  | cons m ms ih => simp [build_commands_cons_isSome, ih, List.forall_mem_cons]

theorem build_commands_length (reg : Registry) (scale : ℚ) (target : Nat × Nat) :
    ∀ (meshes : List ClippedMesh) (cmds : List DrawCmd),
      build_commands reg scale target meshes = some cmds → cmds.length = meshes.length := by
  intro meshes
  induction meshes with
  | nil =>
    intro cmds h
    simp only [build_commands, Option.some.injEq] at h
    rw [← h]
    rfl
  | cons m ms ih =>
    intro cmds h
    rcases hc : buildCommand reg scale target m with _ | c <;>
      rcases hb : build_commands reg scale target ms with _ | cs <;>
        rw [build_commands, hc, hb] at h <;> simp at h
    rw [← h]
    simp [ih cs hb]

/-- C2: after the texture deltas of a frame are applied and before draw
commands are built, `build_commands` succeeds exactly when every texture
identifier referenced by the frame's mesh primitives resolves in the
registry — an unresolved identifier makes it fail fatally (`none`), and on
success no primitive is skipped or substituted: there is one command per
primitive. -/
theorem build_commands_resolution :
    (∀ (reg0 : Registry) (dlt : TextureDelta) (scale : ℚ) (target : Nat × Nat)
        (meshes : List ClippedMesh),
      (build_commands (apply_delta reg0 dlt) scale target meshes).isSome = true
        ↔ ∀ m ∈ meshes,
            (Registry.lookup (apply_delta reg0 dlt) m.textureId).isSome = true)
    ∧ ∀ (reg : Registry) (scale : ℚ) (target : Nat × Nat) (meshes : List ClippedMesh)
        (cmds : List DrawCmd),
        build_commands reg scale target meshes = some cmds →
        cmds.length = meshes.length := by
  constructor
  · intro reg0 dlt scale target meshes
    exact build_commands_isSome_iff (apply_delta reg0 dlt) scale target meshes
  · intro reg scale target meshes cmds h
    exact build_commands_length reg scale target meshes cmds h

/-- A concrete mesh primitive referencing the toolkit texture `egui 0`. -/
def mesh0 : ClippedMesh :=
  { clipRect := { minX := 0, minY := 0, maxX := 10, maxY := 10 }
    vertices := []
    indices := [0, 1, 2]
    textureId := TextureId.egui 0 }

/-- The draw command built for `mesh0` at scale 1 on an 800×600 target,
after a delta installing `egui 0`. -/
def cmd0 : DrawCmd :=
  { clip := { minX := 0, minY := 0, maxX := 10, maxY := 10 }
    texture := RegistryEntry.managed img0
    vertices := []
    indices := [0, 1, 2] }

/-- Witness for C2 at a concrete frame: a delta installing `egui 0` makes
the frame's one primitive resolve, `build_commands` succeeds, and it emits
exactly one command. -/
theorem build_commands_resolution_witness :
    ((build_commands
        (apply_delta [] [(TextureId.egui 0, DeltaEntry.update none img0)])
        1 (800, 600) [mesh0]).isSome = true)
    ∧ [cmd0].length = [mesh0].length :=
  ⟨(build_commands_resolution.1 [] [(TextureId.egui 0, DeltaEntry.update none img0)]
      1 (800, 600) [mesh0]).mpr (by decide),
   build_commands_resolution.2
     (apply_delta [] [(TextureId.egui 0, DeltaEntry.update none img0)])
     1 (800, 600) [mesh0] [cmd0]
     (by norm_num [build_commands, buildCommand, apply_delta, applyDeltaEntry,
       Registry.lookup, Registry.insert, Registry.erase, mesh0, cmd0, clampClip, clampQ])⟩

/-! ## Clamp lemmas -/

theorem le_clampQ (lo hi a : ℚ) (h : lo ≤ hi) : lo ≤ clampQ lo hi a := by
  simp only [clampQ]
  split_ifs <;> linarith

theorem clampQ_le_hi (lo hi a : ℚ) (h : lo ≤ hi) : clampQ lo hi a ≤ hi := by
  simp only [clampQ]
  split_ifs <;> linarith

theorem clampQ_mono (lo hi a b : ℚ) (h : lo ≤ hi) (hab : a ≤ b) :
    clampQ lo hi a ≤ clampQ lo hi b := by
  simp only [clampQ]
  split_ifs <;> linarith

theorem clampQ_eq_lo (lo hi a : ℚ) (h : lo ≤ hi) (ha : a ≤ lo) : clampQ lo hi a = lo := by
  simp only [clampQ]
  split_ifs <;> linarith

theorem clampQ_eq_hi (lo hi a : ℚ) (h : lo ≤ hi) (ha : hi ≤ a) : clampQ lo hi a = hi := by
  simp only [clampQ]
  split_ifs <;> linarith

/-- C4: the clip rectangle of every emitted draw command is the declared
clip scaled to the physical target and clamped within `[0,0]` –
`target_dimensions`; with a non-negative scale and a well-formed declared
clip it is never negative (min ≤ max on both axes), and a declared clip
lying fully outside the target yields a zero-area clip rectangle. -/
theorem clip_rect_clamped :
    ∀ (reg : Registry) (scale : ℚ) (target : Nat × Nat) (m : ClippedMesh) (cmd : DrawCmd),
      buildCommand reg scale target m = some cmd →
      cmd.clip = clampClip m.clipRect scale target
      ∧ (0 ≤ cmd.clip.minX ∧ cmd.clip.maxX ≤ (target.1 : ℚ)
          ∧ 0 ≤ cmd.clip.minY ∧ cmd.clip.maxY ≤ (target.2 : ℚ))
      ∧ (0 ≤ scale → m.clipRect.minX ≤ m.clipRect.maxX → m.clipRect.minY ≤ m.clipRect.maxY →
          cmd.clip.minX ≤ cmd.clip.maxX ∧ cmd.clip.minY ≤ cmd.clip.maxY)
      ∧ (0 ≤ scale → m.clipRect.minX ≤ m.clipRect.maxX → m.clipRect.minY ≤ m.clipRect.maxY →
          (m.clipRect.maxX * scale ≤ 0 ∨ (target.1 : ℚ) ≤ m.clipRect.minX * scale
            ∨ m.clipRect.maxY * scale ≤ 0 ∨ (target.2 : ℚ) ≤ m.clipRect.minY * scale) →
          (cmd.clip.maxX - cmd.clip.minX) * (cmd.clip.maxY - cmd.clip.minY) = 0) := by
  intro reg scale target m cmd h
  have h1 : (0 : ℚ) ≤ (target.1 : ℚ) := Nat.cast_nonneg _
  have h2 : (0 : ℚ) ≤ (target.2 : ℚ) := Nat.cast_nonneg _
  rcases hl : Registry.lookup reg m.textureId with _ | e
  · rw [buildCommand, hl] at h
    exact absurd h (by simp)
  · rw [buildCommand, hl] at h
    simp only [Option.some.injEq] at h
    have hclip : cmd.clip = clampClip m.clipRect scale target := by rw [← h]
    refine ⟨hclip, ?_, ?_, ?_⟩
    · rw [hclip]
      exact ⟨le_clampQ _ _ _ h1, clampQ_le_hi _ _ _ h1,
        le_clampQ _ _ _ h2, clampQ_le_hi _ _ _ h2⟩
    · intro hs hx hy
      rw [hclip]
      exact ⟨clampQ_mono _ _ _ _ h1 (mul_le_mul_of_nonneg_right hx hs),
        clampQ_mono _ _ _ _ h2 (mul_le_mul_of_nonneg_right hy hs)⟩
    · intro hs hx hy hout
      rw [hclip]
      have hx2 : m.clipRect.minX * scale ≤ m.clipRect.maxX * scale :=
        mul_le_mul_of_nonneg_right hx hs
      have hy2 : m.clipRect.minY * scale ≤ m.clipRect.maxY * scale :=
        mul_le_mul_of_nonneg_right hy hs
      rcases hout with h3 | h3 | h3 | h3
      · apply mul_eq_zero_of_left
        rw [show (clampClip m.clipRect scale target).maxX
            = clampQ 0 (target.1 : ℚ) (m.clipRect.maxX * scale) from rfl,
          show (clampClip m.clipRect scale target).minX
            = clampQ 0 (target.1 : ℚ) (m.clipRect.minX * scale) from rfl,
          clampQ_eq_lo _ _ _ h1 h3, clampQ_eq_lo _ _ _ h1 (le_trans hx2 h3)]
        ring
      · apply mul_eq_zero_of_left
        rw [show (clampClip m.clipRect scale target).maxX
            = clampQ 0 (target.1 : ℚ) (m.clipRect.maxX * scale) from rfl,
          show (clampClip m.clipRect scale target).minX
            = clampQ 0 (target.1 : ℚ) (m.clipRect.minX * scale) from rfl,
          clampQ_eq_hi _ _ _ h1 (le_trans h3 hx2), clampQ_eq_hi _ _ _ h1 h3]
        ring
      · apply mul_eq_zero_of_right
        rw [show (clampClip m.clipRect scale target).maxY
            = clampQ 0 (target.2 : ℚ) (m.clipRect.maxY * scale) from rfl,
          show (clampClip m.clipRect scale target).minY
            = clampQ 0 (target.2 : ℚ) (m.clipRect.minY * scale) from rfl,
          clampQ_eq_lo _ _ _ h2 h3, clampQ_eq_lo _ _ _ h2 (le_trans hy2 h3)]
        ring
      · apply mul_eq_zero_of_right
        rw [show (clampClip m.clipRect scale target).maxY
            = clampQ 0 (target.2 : ℚ) (m.clipRect.maxY * scale) from rfl,
          show (clampClip m.clipRect scale target).minY
            = clampQ 0 (target.2 : ℚ) (m.clipRect.minY * scale) from rfl,
          clampQ_eq_hi _ _ _ h2 (le_trans h3 hy2), clampQ_eq_hi _ _ _ h2 h3]
        ring

/-- A concrete mesh primitive whose declared clip lies fully outside an
800×600 target, referencing the toolkit texture `egui 0`. -/
def meshOut : ClippedMesh :=
  { clipRect := { minX := -10, minY := -10, maxX := -5, maxY := -5 }
    vertices := []
    indices := [0, 1, 2]
    textureId := TextureId.egui 0 }

/-- The draw command built for `meshOut` at scale 1 on an 800×600 target:
its clip collapses to the zero-area rectangle at the origin. -/
def cmdOut : DrawCmd :=
  { clip := { minX := 0, minY := 0, maxX := 0, maxY := 0 }
    texture := RegistryEntry.managed img0
    vertices := []
    indices := [0, 1, 2] }

/-- Witness for C4 at a concrete primitive fully outside the target: the
emitted clip is the clamped one, lies within bounds, and has zero area. -/
theorem clip_rect_clamped_witness :
    cmdOut.clip = clampClip meshOut.clipRect 1 (800, 600)
    ∧ (0 ≤ cmdOut.clip.minX ∧ cmdOut.clip.maxX ≤ ((800, 600).1 : ℚ)
        ∧ 0 ≤ cmdOut.clip.minY ∧ cmdOut.clip.maxY ≤ ((800, 600).2 : ℚ))
    ∧ (cmdOut.clip.minX ≤ cmdOut.clip.maxX ∧ cmdOut.clip.minY ≤ cmdOut.clip.maxY)
    ∧ (cmdOut.clip.maxX - cmdOut.clip.minX) * (cmdOut.clip.maxY - cmdOut.clip.minY) = 0 := by
  have happ := clip_rect_clamped [(TextureId.egui 0, RegistryEntry.managed img0)]
    1 (800, 600) meshOut cmdOut
    (by norm_num [buildCommand, Registry.lookup, meshOut, cmdOut, clampClip, clampQ])
  exact ⟨happ.1, happ.2.1,
    happ.2.2.1 (by norm_num) (by norm_num [meshOut]) (by norm_num [meshOut]),
    happ.2.2.2 (by norm_num) (by norm_num [meshOut]) (by norm_num [meshOut])
      (Or.inl (by norm_num [meshOut]))⟩

end EguiVulkano
